import Mathlib

/-!
Shallow embedding of the `config3` bidirectional file-synchronization engine
of this repository (files `src/config3/file_handler.rs` and
`src/config3/config_file.rs`, driven by `src/main.rs`).

The engine keeps a typed in-memory value and an on-disk text file in sync via
four background activities (file watcher, file saver, deserializer thread,
serializer thread) connected by two tokio `watch` channels (raw text, typed
result) and two process-wide atomic booleans (`HAS_WRITTEN`,
`HAS_DESERIALIZED`).

Modelling conventions:
* a `watch` channel is modelled as its current value plus one boolean
  "unseen change" flag per receiver (tokio `watch` coalesces intermediate
  values, so a boolean is faithful);
* `send_if_modified` updates the value and notifies receivers exactly when
  the closure reports a modification; `send_replace` and `send_modify`
  notify unconditionally;
* each component's loop body becomes a step function on a global
  `EngineState`; the external JSON (de)serializer (`serde_json`) is a
  parameter `parse : String → Except String T` / `ser : T → String`;
* disk I/O becomes explicit state: `file` is the on-disk content, `pending`
  counts undelivered write-close inotify events, and read/write outcomes are
  `Except` parameters of the steps that perform them;
* `writeCount` and `watcherPub` are ghost instrumentation counting disk
  writes performed by the saver and publications performed by the watcher.
-/

namespace AvConfig

/-- Rust enum `ConfigResult<T>` from `config_file.rs`: `Valid(T)` or
`Invalid(T, ConfigError)` with `ConfigError = String`. -/
inductive ConfigResult (T : Type) where
  | Valid : T → ConfigResult T
  | Invalid : T → String → ConfigResult T
deriving DecidableEq

namespace ConfigResult

/-- Rust `ConfigResult::with_error`: takes the payload out of either variant
and rebuilds `Invalid(payload, errors.to_string())`. -/
def with_error {T : Type} (self : ConfigResult T) (errors : String) : ConfigResult T :=
  match self with
  | .Valid v => .Invalid v errors
  | .Invalid v _ => .Invalid v errors

/-- Rust `ConfigResult::get`: the `T` payload of either variant. -/
def get {T : Type} : ConfigResult T → T
  | .Valid v => v
  | .Invalid v _ => v

/-- Effect of mutating through Rust `ConfigResult::get_mut` (as `main.rs`
does inside `tx.send_modify`): the payload is updated in place, the variant
and any error message are untouched. -/
def modify_via_get_mut {T : Type} (f : T → T) : ConfigResult T → ConfigResult T
  | .Valid v => .Valid (f v)
  | .Invalid v e => .Invalid (f v) e

/-- Rust `impl Default for ConfigResult<T>`. -/
def default {T : Type} (dflt : T) : ConfigResult T := .Valid dflt

/-- Whether the result is the `Valid` variant. -/
def isValid {T : Type} : ConfigResult T → Bool
  | .Valid _ => true
  | .Invalid _ _ => false

end ConfigResult

/-- Global state of the engine: disk, the two watch channels with their
receivers' pending flags, the two atomic booleans, the inotify event queue,
and ghost counters. -/
structure EngineState (T : Type) where
  /-- on-disk content of the synchronized file -/
  file : String
  /-- current value of the raw-text watch channel -/
  raw : String
  /-- unseen raw-text change for the file saver's receiver -/
  saverPend : Bool
  /-- unseen raw-text change for the deserializer's receiver -/
  deserPend : Bool
  /-- current value of the typed watch channel -/
  typed : ConfigResult T
  /-- unseen typed change for the serializer's receiver -/
  serPend : Bool
  /-- static `HAS_WRITTEN` in `file_handler.rs` -/
  hasWritten : Bool
  /-- static `HAS_DESERIALIZED` in `config_file.rs` -/
  hasDeserialized : Bool
  /-- undelivered write-close filesystem events -/
  pending : Nat
  /-- ghost: disk writes performed by the saver -/
  writeCount : Nat
  /-- ghost: publications performed by the watcher -/
  watcherPub : Nat
deriving DecidableEq

/-- Kinds of filesystem events delivered to the watcher callback; the code
only reacts to `Access(Close(Write))`. -/
inductive FsEventKind where
  | accessCloseWrite
  | other
deriving DecidableEq

/-- One invocation of the `FileHander::file_watcher` callback on a
write-close event. `readResult` is the outcome of
`std::fs::read_to_string`; a failed read is dropped (`if let Ok`). If
`HAS_WRITTEN` is set it is cleared and nothing else happens; otherwise the
text is published via `send_if_modified` exactly when it differs. -/
def file_watcher_step {T : Type} (readResult : Except String String)
    (s : EngineState T) : EngineState T :=
  if s.hasWritten then
    { s with hasWritten := false, pending := s.pending - 1 }
  else
    match readResult with
    | .error _ => { s with pending := s.pending - 1 }
    | .ok contents =>
        if s.raw ≠ contents then
          { s with raw := contents, saverPend := true, deserPend := true,
                   watcherPub := s.watcherPub + 1, pending := s.pending - 1 }
        else
          { s with pending := s.pending - 1 }

/-- The watcher callback on an arbitrary event: non write-close events are
ignored by the `matches!` guard. -/
def watcher_on_event {T : Type} (ev : FsEventKind) (readResult : Except String String)
    (s : EngineState T) : EngineState T :=
  match ev with
  | .accessCloseWrite => file_watcher_step readResult s
  | .other => s

/-- One iteration of the `FileHander::file_saver` loop, given the outcome
`writeResult` of `std::fs::write`. The iteration is skipped (`continue`,
clearing no flag) when `HAS_WRITTEN && HAS_DESERIALIZED`; otherwise
`HAS_WRITTEN` is set and the full raw text is written, `.unwrap()` turning a
write failure into a fatal error. -/
def file_saver_step {T : Type} (writeResult : Except String Unit)
    (s : EngineState T) : Except String (EngineState T) :=
  let s1 := { s with saverPend := false }
  if s1.hasWritten && s1.hasDeserialized then
    .ok s1
  else
    let s2 := { s1 with hasWritten := true }
    match writeResult with
    | .ok _ => .ok { s2 with file := s2.raw, pending := s2.pending + 1,
                             writeCount := s2.writeCount + 1 }
    | .error e => .error e

/-- The saver iteration when the disk write succeeds (used by the
scheduler). -/
def file_saver_run {T : Type} (s : EngineState T) : EngineState T :=
  let s1 := { s with saverPend := false }
  if s1.hasWritten && s1.hasDeserialized then
    s1
  else
    { s1 with hasWritten := true, file := s1.raw, pending := s1.pending + 1,
              writeCount := s1.writeCount + 1 }

/-- One iteration of the deserializer thread loop in
`ConfigurationFile::new`: borrow the raw text, attempt the parse, store
`HAS_DESERIALIZED = true`, then publish `Invalid` via
`send_modify`/`with_error` on failure or `Valid` via `send_replace` on
success (both notify the serializer unconditionally). -/
def deserializer_step {T : Type} (parse : String → Except String T)
    (s : EngineState T) : EngineState T :=
  let s1 := { s with deserPend := false }
  let parsed := parse s1.raw
  let s2 := { s1 with hasDeserialized := true }
  match parsed with
  | .error err =>
      { s2 with typed := s2.typed.with_error err, serPend := true }
  | .ok config =>
      { s2 with typed := .Valid config, serPend := true }

/-- The ordered effectful actions inside one deserializer loop iteration,
following the statement order of the source. -/
inductive DeserAction where
  | parseAttempt
  | setFlag
  | publishInvalid (e : String)
  | publishValid
deriving DecidableEq

/-- Trace of one deserializer iteration: the parse attempt happens first
(`let parsed = serde_json::from_str::<T>(&contents)`), then the flag store
(`HAS_DESERIALIZED.store(true, ...)`), then the publication. -/
def deser_trace {T : Type} (parse : String → Except String T)
    (raw : String) : List DeserAction :=
  match parse raw with
  | .error e => [.parseAttempt, .setFlag, .publishInvalid e]
  | .ok _ => [.parseAttempt, .setFlag, .publishValid]

/-- One iteration of the serializer thread loop in
`ConfigurationFile::new`: if `HAS_DESERIALIZED` is set it is cleared and the
iteration ends (`continue`); otherwise the current payload (`.get()`) is
serialized and published with `send_if_modified` exactly when it differs
from the current raw text. -/
def serializer_step {T : Type} (ser : T → String)
    (s : EngineState T) : EngineState T :=
  let s1 := { s with serPend := false }
  if s1.hasDeserialized then
    { s1 with hasDeserialized := false }
  else
    let config := ser s1.typed.get
    if s1.raw ≠ config then
      { s1 with raw := config, saverPend := true, deserPend := true }
    else
      s1

/-- Rust `FileHander::new` reduced to its synchronous read: the watch
channel is seeded with `std::fs::read_to_string(&path)?`, whose failure
aborts construction. Returns the initial raw-channel value. -/
def fileHander_new (readResult : Except String String) : Except String String :=
  match readResult with
  | .error e => .error e
  | .ok contents => .ok contents

/-- The typed value seeded by `ConfigurationFile::new` from file content
that was read successfully: `Valid(v)` on a successful parse,
`Invalid(T::default(), err.to_string())` on a failed one. -/
def initialResult {T : Type} (parse : String → Except String T) (dflt : T)
    (c0 : String) : ConfigResult T :=
  match parse c0 with
  | .ok v => .Valid v
  | .error err => .Invalid dflt err

/-- The initial typed value computed by `ConfigurationFile::new`: re-read
the file (failure aborts construction), then `Valid(v)` on a successful
parse or `Invalid(T::default(), err.to_string())` on a failed one. -/
def configurationFile_initial {T : Type} (parse : String → Except String T)
    (dflt : T) (readResult : Except String String) :
    Except String (ConfigResult T) :=
  match readResult with
  | .error e => .error e
  | .ok contents => .ok (initialResult parse dflt contents)

/-- The engine state right after `FileHander::new` plus
`ConfigurationFile::new` succeed over disk content `c0`: both raw receivers
have seen the seed value, `config_rx.mark_changed()` arms the serializer's
receiver, `HAS_DESERIALIZED` is statically initialized to `true`,
`HAS_WRITTEN` to `false`, and no filesystem event is outstanding. -/
def construct {T : Type} (parse : String → Except String T) (dflt : T)
    (c0 : String) : EngineState T :=
  { file := c0
    raw := c0
    saverPend := false
    deserPend := false
    typed := initialResult parse dflt c0
    serPend := true
    hasWritten := false
    hasDeserialized := true
    pending := 0
    writeCount := 0
    watcherPub := 0 }

/-- An external actor replaces the file's content and the OS queues a
write-close event. -/
def external_edit {T : Type} (contents : String) (s : EngineState T) :
    EngineState T :=
  { s with file := contents, pending := s.pending + 1 }

/-- An application-driven mutation as in `main.rs`:
`tx.send_modify(|res| ... res.get_mut() ...)`, which updates the payload in
place and notifies the serializer unconditionally. -/
def app_modify {T : Type} (f : T → T) (s : EngineState T) : EngineState T :=
  { s with typed := s.typed.modify_via_get_mut f, serPend := true }

/-- One scheduler step: run the first component with work to do, in the
fixed priority order watcher, saver, deserializer, serializer; `none` when
every component is idle. Disk reads and writes succeed. -/
def step1 {T : Type} (parse : String → Except String T) (ser : T → String)
    (s : EngineState T) : Option (EngineState T) :=
  if 0 < s.pending then some (file_watcher_step (.ok s.file) s)
  else if s.saverPend then some (file_saver_run s)
  else if s.deserPend then some (deserializer_step parse s)
  else if s.serPend then some (serializer_step ser s)
  else none

/-- Run the scheduler until every component is idle or the fuel runs out. -/
def settle {T : Type} (fuel : Nat) (parse : String → Except String T)
    (ser : T → String) (s : EngineState T) : EngineState T :=
  match fuel with
  | 0 => s
  | fuel + 1 =>
      match step1 parse ser s with
      | none => s
      | some s1 => settle fuel parse ser s1

/-- Every component is idle: no outstanding filesystem event and no unseen
channel change. -/
def Quiescent {T : Type} (s : EngineState T) : Prop :=
  s.pending = 0 ∧ s.saverPend = false ∧ s.deserPend = false ∧ s.serPend = false

instance {T : Type} (s : EngineState T) : Decidable (Quiescent s) := by
  unfold Quiescent; infer_instance

/-- The deserializer's possible publications to the typed channel: a
successful parse replaces the whole result with `Valid` (`send_replace`), a
failed parse rewrites it with `with_error` (`send_modify`). -/
inductive DeserOp (T : Type) where
  | success (v : T)
  | failure (e : String)

/-- Effect of one deserializer publication on the typed value. -/
def DeserOp.apply {T : Type} : DeserOp T → ConfigResult T → ConfigResult T
  | .success v, _ => .Valid v
  | .failure e, r => r.with_error e

/-- Effect of a whole sequence of deserializer publications. -/
def apply_deser_ops {T : Type} (l : List (DeserOp T)) (r : ConfigResult T) :
    ConfigResult T :=
  l.foldl (fun acc op => DeserOp.apply op acc) r

/-- Specification-side definition for comparison: the payload the spec says the typed result must
carry, namely the initial payload (type default or seed parse) overridden by
each subsequent successful parse, with failed parses leaving it unchanged.
Compared against the payload the code actually produces. -/
def specLastGoodValue {T : Type} (l : List (DeserOp T)) (init : T) : T :=
  l.foldl (fun acc op =>
    match op with
    | .success v => v
    | .failure _ => acc) init

/-- Every operation any activity applies to the typed channel's value: the
deserializer's two publications plus the application's in-place mutation
through `get_mut` (`main.rs`). -/
inductive ConfigOp (T : Type) where
  | parseSuccess (v : T)
  | parseFailure (e : String)
  | appMutate (f : T → T)

/-- Effect of one typed-channel operation. -/
def ConfigOp.apply {T : Type} : ConfigOp T → ConfigResult T → ConfigResult T
  | .parseSuccess v, _ => .Valid v
  | .parseFailure e, r => r.with_error e
  | .appMutate f, r => r.modify_via_get_mut f

/-- Decimal digit value of a character, if any. -/
def digit? (c : Char) : Option Nat :=
  if c = '0' then some 0
  else if c = '1' then some 1
  else if c = '2' then some 2
  else if c = '3' then some 3
  else if c = '4' then some 4
  else if c = '5' then some 5
  else if c = '6' then some 6
  else if c = '7' then some 7
  else if c = '8' then some 8
  else if c = '9' then some 9
  else none

/-- Accumulate a decimal numeral, failing on any non-digit. -/
def parseNatCore : List Char → Nat → Option Nat
  | [], acc => some acc
  | c :: cs, acc =>
      match digit? c with
      | some d => parseNatCore cs (acc * 10 + d)
      | none => none

/-- Concrete stand-in for `serde_json::from_str` over `T = Nat`, used to
exercise the generic theorems on closed inputs: parses a decimal numeral,
failing with a non-empty message otherwise. -/
def natParse (s : String) : Except String Nat :=
  match s.data with
  | [] => Except.error (String.append "invalid number: " s)
  | c :: cs =>
      match parseNatCore (c :: cs) 0 with
      | some n => Except.ok n
      | none => Except.error (String.append "invalid number: " s)

/-- Concrete stand-in for `serde_json::to_string` over `T = Nat`. -/
def natSer (n : Nat) : String := toString n

/-- A concrete quiescent engine state over `T = Nat`, with the file, the raw
channel and the typed value mutually consistent. -/
def q0state : EngineState Nat :=
  { file := "1"
    raw := "1"
    saverPend := false
    deserPend := false
    typed := .Valid 1
    serPend := false
    hasWritten := false
    hasDeserialized := false
    pending := 0
    writeCount := 0
    watcherPub := 0 }

/-- A concrete saver wake-up in which `HAS_DESERIALIZED` is set while
`HAS_WRITTEN` is clear: a raw-text change freshly processed by the
deserializer reaching the saver. -/
def saverCexState : EngineState Nat :=
  { file := "old"
    raw := "new"
    saverPend := true
    deserPend := false
    typed := .Valid 0
    serPend := false
    hasWritten := false
    hasDeserialized := true
    pending := 0
    writeCount := 0
    watcherPub := 0 }

/-- A quiescent state offers no scheduler step. -/
theorem step1_eq_none_of_quiescent {T : Type}
    (parse : String → Except String T) (ser : T → String)
    (s : EngineState T) (h : Quiescent s) : step1 parse ser s = none := by
  obtain ⟨h1, h2, h3, h4⟩ := h
  simp [step1, h1, h2, h3, h4]

/-- A quiescent state is a fixed point of the scheduler. -/
theorem settle_eq_self_of_quiescent {T : Type}
    (parse : String → Except String T) (ser : T → String)
    (s : EngineState T) (h : Quiescent s) (k : Nat) :
    settle k parse ser s = s := by
  cases k with
  | zero => rfl
  | succ k => simp [settle, step1_eq_none_of_quiescent parse ser s h]

/-- Rewriting with an error message keeps the payload. -/
theorem ConfigResult.get_with_error {T : Type} (r : ConfigResult T) (e : String) :
    (r.with_error e).get = r.get := by
  cases r <;> rfl

/-- Mutating through `get_mut` maps the payload and keeps everything else. -/
theorem ConfigResult.get_modify {T : Type} (f : T → T) (r : ConfigResult T) :
    (r.modify_via_get_mut f).get = f r.get := by
  cases r <;> rfl

/-- The payload after any sequence of deserializer publications is exactly
the payload the spec prescribes. -/
theorem apply_deser_ops_get {T : Type} (l : List (DeserOp T)) (r : ConfigResult T) :
    (apply_deser_ops l r).get = specLastGoodValue l r.get := by
  induction l generalizing r with
  | nil => rfl
  | cons op l ih =>
      cases op with
      | success v =>
          simpa [apply_deser_ops, specLastGoodValue, DeserOp.apply, List.foldl]
            using ih (ConfigResult.Valid v)
      | failure e =>
          have h1 : apply_deser_ops (DeserOp.failure e :: l) r
              = apply_deser_ops l (r.with_error e) := rfl
          rw [h1, ih, ConfigResult.get_with_error]
          rfl

/-- C1 (counterexample): a saver wake-up in which the originated-from-disk
flag is set but the echoed-write flag is clear. The claim predicts a skipped
write and a cleared flag; the code's skip condition is the conjunction
`HAS_WRITTEN && HAS_DESERIALIZED`, so the saver writes the raw text to disk
and leaves the flag set. -/
theorem file_saver_writes_despite_disk_flag :
    saverCexState.hasDeserialized = true
    ∧ saverCexState.hasWritten = false
    ∧ (file_saver_run saverCexState).writeCount = saverCexState.writeCount + 1
    ∧ (file_saver_run saverCexState).file = saverCexState.raw
    ∧ saverCexState.file ≠ saverCexState.raw
    ∧ (file_saver_run saverCexState).hasDeserialized = true := by
  refine ⟨rfl, rfl, rfl, rfl, by decide, rfl⟩

/-- C1 (amended): on each raw-text change notification, the saver skips the
disk write precisely when the echoed-write and originated-from-disk flags
are both set, clearing neither; otherwise it sets the echoed-write flag and
writes the full raw text to disk, replacing the file's prior contents. -/
theorem file_saver_skip_protocol {T : Type} (s : EngineState T) :
    file_saver_step (Except.ok ()) s =
      Except.ok
        (bif s.hasWritten && s.hasDeserialized then
          { s with saverPend := false }
         else
          { s with saverPend := false, hasWritten := true, file := s.raw,
                   pending := s.pending + 1, writeCount := s.writeCount + 1 })
    ∧ (bif s.hasWritten && s.hasDeserialized then
        (file_saver_run s).hasDeserialized = s.hasDeserialized
          ∧ (file_saver_run s).hasWritten = s.hasWritten
          ∧ (file_saver_run s).writeCount = s.writeCount
          ∧ (file_saver_run s).file = s.file
       else True) := by
  constructor
  · cases hw : s.hasWritten <;> cases hd : s.hasDeserialized <;>
      simp [file_saver_step, hw, hd]
  · cases hw : s.hasWritten <;> cases hd : s.hasDeserialized <;>
      simp [file_saver_run, hw, hd]

/-- C4: on each typed-result change, if the originated-from-disk flag is set
the serializer clears it and does nothing else; otherwise it serializes only
the payload (`.get()`, identical for Valid and Invalid, discarding the error
annotation) and publishes to the raw channel exactly when the text differs
from the current raw text. -/
theorem serializer_skip_protocol {T : Type} (ser : T → String)
    (s : EngineState T) (v : T) (e : String) :
    serializer_step ser s =
      (bif s.hasDeserialized then
        { s with serPend := false, hasDeserialized := false }
       else if s.raw = ser s.typed.get then
        { s with serPend := false }
       else
        { s with serPend := false, raw := ser s.typed.get,
                 saverPend := true, deserPend := true })
    ∧ (ConfigResult.Invalid v e).get = v
    ∧ (ConfigResult.Valid v).get = v
    ∧ ser (ConfigResult.Invalid v e).get = ser (ConfigResult.Valid v).get := by
  refine ⟨?_, rfl, rfl, rfl⟩
  cases hd : s.hasDeserialized
  · by_cases hr : s.raw = ser s.typed.get <;> simp [serializer_step, hd, hr]
  · simp [serializer_step, hd]

/-- C5 (counterexample): in the trace of one deserializer iteration the
parse attempt strictly precedes the flag store, so the claim that the
originated-from-disk flag is set before attempting to parse fails. -/
theorem deserializer_parses_before_flag_store :
    ¬ ((deser_trace natParse "7").indexOf DeserAction.setFlag <
        (deser_trace natParse "7").indexOf DeserAction.parseAttempt)
    ∧ (deser_trace natParse "7").indexOf DeserAction.parseAttempt = 0
    ∧ (deser_trace natParse "7").indexOf DeserAction.setFlag = 1 := by
  have h : (deser_trace natParse "7").indexOf DeserAction.parseAttempt = 0
      ∧ (deser_trace natParse "7").indexOf DeserAction.setFlag = 1 := by
    unfold deser_trace
    cases natParse "7" <;> exact ⟨rfl, rfl⟩
  refine ⟨?_, h.1, h.2⟩
  rw [h.1, h.2]
  omega

/-- C5 (amended): the deserializer sets the originated-from-disk flag
immediately after attempting the parse and before publishing; the flag ends
up set whatever the parse outcome; on success it publishes Valid(parsed
value) to the typed channel. -/
theorem deserializer_flag_arming {T : Type} (parse : String → Except String T)
    (s : EngineState T) (raw : String) (v : T)
    (hs : parse s.raw = Except.ok v) :
    (deser_trace parse raw).indexOf DeserAction.parseAttempt = 0
    ∧ (deser_trace parse raw).indexOf DeserAction.setFlag = 1
    ∧ (∀ s2 : EngineState T, (deserializer_step parse s2).hasDeserialized = true)
    ∧ (deserializer_step parse s).typed = ConfigResult.Valid v
    ∧ (deserializer_step parse s).serPend = true := by
  refine ⟨?_, ?_, ?_, ?_, ?_⟩
  · unfold deser_trace; cases parse raw <;> rfl
  · unfold deser_trace; cases parse raw <;> rfl
  · intro s2
    simp only [deserializer_step]
    cases hp2 : parse s2.raw <;> simp [hp2]
  · simp [deserializer_step, hs]
  · simp only [deserializer_step]
    cases hp2 : parse s.raw <;> simp [hp2]

/-- C6: on a write-close filesystem event, if the echoed-write flag is set
the watcher clears it and neither reads nor publishes (the result does not
depend on the disk content); otherwise it reads the file and publishes the
text exactly when it differs from the current raw text, so identical content
is never redelivered downstream. -/
theorem file_watcher_echo_suppression {T : Type} (s : EngineState T)
    (r : Except String String) :
    file_watcher_step r s =
      (bif s.hasWritten then
        { s with hasWritten := false, pending := s.pending - 1 }
       else
        match r with
        | .error _ => { s with pending := s.pending - 1 }
        | .ok c =>
            if s.raw = c then { s with pending := s.pending - 1 }
            else { s with raw := c, saverPend := true, deserPend := true,
                          watcherPub := s.watcherPub + 1,
                          pending := s.pending - 1 })
    ∧ (bif s.hasWritten then
        file_watcher_step r s = file_watcher_step (Except.error "") s
       else True)
    ∧ watcher_on_event FsEventKind.accessCloseWrite r s = file_watcher_step r s := by
  refine ⟨?_, ?_, rfl⟩
  · cases hw : s.hasWritten
    · cases r with
      | error e => simp [file_watcher_step, hw]
      | ok c =>
          by_cases hr : s.raw = c <;> simp [file_watcher_step, hw, hr]
    · simp [file_watcher_step, hw]
  · cases hw : s.hasWritten <;> simp [file_watcher_step, hw]

/-- C8: when the saver attempts a disk write (the skip condition does not
hold) and the write fails, the failure is propagated as a fatal error; the
iteration never continues to a successful state. -/
theorem write_failure_fatal {T : Type} (s : EngineState T) (e : String)
    (h : s.hasWritten = false ∨ s.hasDeserialized = false) :
    file_saver_step (Except.error e) s = Except.error e
    ∧ ∀ s2 : EngineState T, file_saver_step (Except.error e) s ≠ Except.ok s2 := by
  have hstep : file_saver_step (Except.error e) s = Except.error e := by
    rcases h with h | h <;> simp [file_saver_step, h]
  exact ⟨hstep, fun s2 hcontra => by simp [hstep] at hcontra⟩

/-- C8 (witness): the saver at a concrete non-suppressed wake-up with a
failing disk write propagates the error. -/
theorem write_failure_fatal_witness :
    (q0state.hasWritten = false ∨ q0state.hasDeserialized = false)
    ∧ file_saver_step (Except.error "disk full") q0state = Except.error "disk full" := by
  have h := write_failure_fatal q0state "disk full" (Or.inl rfl)
  exact ⟨Or.inl rfl, h.1⟩

/-- C10: mutating through `get_mut` maps the payload and preserves the
variant and any error message, on both Valid and Invalid; and among all
typed-channel operations only a successful parse turns an Invalid result
into a Valid one. -/
theorem get_mut_preserves_error_message {T : Type} (f : T → T) (v : T)
    (e : String) (op : ConfigOp T) (w : T) (e2 : String)
    (h : (op.apply (ConfigResult.Invalid w e2)).isValid = true) :
    ConfigResult.modify_via_get_mut f (ConfigResult.Invalid v e)
        = ConfigResult.Invalid (f v) e
    ∧ ConfigResult.modify_via_get_mut f (ConfigResult.Valid v)
        = ConfigResult.Valid (f v)
    ∧ ∃ u, op = ConfigOp.parseSuccess u := by
  refine ⟨rfl, rfl, ?_⟩
  cases op with
  | parseSuccess u => exact ⟨u, rfl⟩
  | parseFailure e3 =>
      simp [ConfigOp.apply, ConfigResult.with_error, ConfigResult.isValid] at h
  | appMutate g =>
      simp [ConfigOp.apply, ConfigResult.modify_via_get_mut,
            ConfigResult.isValid] at h

/-- C10 (witness): a concrete mutation over an Invalid result keeps the
message, and a concrete Valid-producing operation is a parse success. -/
theorem get_mut_preserves_error_message_witness :
    ((ConfigOp.parseSuccess 9).apply (ConfigResult.Invalid 0 "old error")).isValid = true
    ∧ ConfigResult.modify_via_get_mut (fun x => x + 1) (ConfigResult.Invalid 2 "bad")
        = ConfigResult.Invalid 3 "bad"
    ∧ ∃ u, ConfigOp.parseSuccess 9 = ConfigOp.parseSuccess (u : Nat) := by
  have h := get_mut_preserves_error_message (fun x => x + 1) 2 "bad"
    (ConfigOp.parseSuccess 9) 0 "old error" rfl
  exact ⟨rfl, h.1, h.2.2⟩

/-- Rewriting with an error message yields Invalid around the old payload. -/
theorem ConfigResult.with_error_eq_invalid {T : Type} (r : ConfigResult T)
    (e : String) : r.with_error e = ConfigResult.Invalid r.get e := by
  cases r <;> rfl

/-- C5 (witness): the amended flag-arming behavior on the concrete decimal
parser, state and input. -/
theorem deserializer_flag_arming_witness :
    natParse q0state.raw = Except.ok 1
    ∧ (deser_trace natParse "abc").indexOf DeserAction.parseAttempt = 0
    ∧ (deser_trace natParse "abc").indexOf DeserAction.setFlag = 1
    ∧ (deserializer_step natParse q0state).typed = ConfigResult.Valid 1
    ∧ (deserializer_step natParse q0state).serPend = true := by
  have h := deserializer_flag_arming natParse q0state "abc" 1 rfl
  exact ⟨rfl, h.1, h.2.1, h.2.2.2.1, h.2.2.2.2⟩

/-- C3: a parse failure processed by the deserializer publishes Invalid with
exactly the previous payload and the (non-empty) error message; and over any
sequence of deserializer publications starting from the constructed initial
result, the payload is exactly the spec's prescribed value: the type default
or the most recent successfully parsed value. -/
theorem error_preservation {T : Type} (parse : String → Except String T)
    (dflt : T) (s : EngineState T) (err : String)
    (he : parse s.raw = Except.error err) (hne : err ≠ "")
    (l : List (DeserOp T)) (c0 : String) :
    (deserializer_step parse s).typed = ConfigResult.Invalid s.typed.get err
    ∧ err ≠ ""
    ∧ (apply_deser_ops l (initialResult parse dflt c0)).get
        = specLastGoodValue l (initialResult parse dflt c0).get
    ∧ (initialResult parse dflt c0).get
        = (match parse c0 with
           | .ok v => v
           | .error _ => dflt) := by
  refine ⟨?_, hne, apply_deser_ops_get l _, ?_⟩
  · simp [deserializer_step, he, ConfigResult.with_error_eq_invalid]
  · unfold initialResult
    cases parse c0 <;> rfl

/-- C3 (witness): error preservation on the concrete decimal parser, a
failing raw text, and a concrete publication sequence. -/
theorem error_preservation_witness :
    natParse ({ q0state with raw := "abc" } : EngineState Nat).raw
        = Except.error "invalid number: abc"
    ∧ ("invalid number: abc" : String) ≠ ""
    ∧ (deserializer_step natParse { q0state with raw := "abc" }).typed
        = ConfigResult.Invalid 1 "invalid number: abc"
    ∧ (apply_deser_ops [DeserOp.failure "e1", DeserOp.success 5, DeserOp.failure "e2"]
        (initialResult natParse 0 "3")).get
        = specLastGoodValue [DeserOp.failure "e1", DeserOp.success 5, DeserOp.failure "e2"]
            (initialResult natParse 0 "3").get := by
  have h := error_preservation natParse 0 { q0state with raw := "abc" }
    "invalid number: abc" rfl (by decide)
    [DeserOp.failure "e1", DeserOp.success 5, DeserOp.failure "e2"] "3"
  exact ⟨rfl, by decide, h.1, h.2.2.1⟩

/-- C7: construction reads the file synchronously and a failed read is
returned to the caller, both in FileHander::new and in the re-read of
ConfigurationFile::new; on a successful read the initial typed value is
Valid(v) when the content parses and Invalid(default, message) when it does
not. -/
theorem construction_seeding {T : Type} (parse : String → Except String T)
    (dflt : T) (e c c2 err : String) (v : T)
    (hok : parse c = Except.ok v) (herr : parse c2 = Except.error err) :
    fileHander_new (Except.error e) = Except.error e
    ∧ configurationFile_initial parse dflt (Except.error e) = Except.error e
    ∧ fileHander_new (Except.ok c) = Except.ok c
    ∧ configurationFile_initial parse dflt (Except.ok c)
        = Except.ok (ConfigResult.Valid v)
    ∧ configurationFile_initial parse dflt (Except.ok c2)
        = Except.ok (ConfigResult.Invalid dflt err) := by
  refine ⟨rfl, rfl, rfl, ?_, ?_⟩
  · simp [configurationFile_initial, initialResult, hok]
  · simp [configurationFile_initial, initialResult, herr]

/-- C7 (witness): construction over a concrete unreadable file, a concrete
parseable content and a concrete unparseable content. -/
theorem construction_seeding_witness :
    natParse "3" = Except.ok 3
    ∧ natParse "abc" = Except.error "invalid number: abc"
    ∧ fileHander_new (Except.error "no such file") = Except.error "no such file"
    ∧ configurationFile_initial natParse 0 (Except.ok "3")
        = Except.ok (ConfigResult.Valid 3)
    ∧ configurationFile_initial natParse 0 (Except.ok "abc")
        = Except.ok (ConfigResult.Invalid 0 "invalid number: abc") := by
  have h := construction_seeding natParse 0 "no such file" "3" "abc"
    "invalid number: abc" 3 rfl rfl
  exact ⟨rfl, rfl, h.1, h.2.2.2.1, h.2.2.2.2⟩

/-- C9: at construction the originated-from-disk flag is initialized true
and the typed channel is marked changed; the serializer's first wakeup
clears the flag and changes nothing else; settling from the constructed
state performs no disk write and leaves the file content untouched. -/
theorem startup_no_writeback {T : Type} (parse : String → Except String T)
    (ser : T → String) (dflt : T) (c0 : String) :
    (construct parse dflt c0).hasDeserialized = true
    ∧ (construct parse dflt c0).serPend = true
    ∧ serializer_step ser (construct parse dflt c0)
        = { construct parse dflt c0 with serPend := false, hasDeserialized := false }
    ∧ (settle 4 parse ser (construct parse dflt c0)).file = c0
    ∧ (settle 4 parse ser (construct parse dflt c0)).writeCount = 0
    ∧ step1 parse ser (settle 4 parse ser (construct parse dflt c0)) = none := by
  refine ⟨rfl, rfl, rfl, rfl, rfl, rfl⟩

/-- C2: from a quiescent consistent state, a single external edit whose
content parses settles in finitely many propagation steps to a state whose
typed value is the parse of the new file content, whose file content is the
edited text, and from which no further step (hence no further disk write)
occurs; symmetrically, a single application-driven mutation settles to a
state whose file content is the serialization of the new value, with the
watcher never publishing along the way (no re-publication of the engine's
own write), and no further step occurs. -/
theorem convergence {T : Type} (parse : String → Except String T)
    (ser : T → String) (s0 : EngineState T)
    (hq : Quiescent s0) (hfr : s0.file = s0.raw)
    (hhw : s0.hasWritten = false) (hhd : s0.hasDeserialized = false)
    (n : String) (v : T) (hp : parse n = Except.ok v) (hne : n ≠ s0.raw)
    (f : T → T) :
    ((settle 8 parse ser (external_edit n s0)).typed = ConfigResult.Valid v
      ∧ (settle 8 parse ser (external_edit n s0)).file = n
      ∧ ∀ k, settle k parse ser (settle 8 parse ser (external_edit n s0))
          = settle 8 parse ser (external_edit n s0))
    ∧ ((settle 8 parse ser (app_modify f s0)).file = ser (f s0.typed.get)
      ∧ (settle 8 parse ser (app_modify f s0)).watcherPub = s0.watcherPub
      ∧ ∀ k, settle k parse ser (settle 8 parse ser (app_modify f s0))
          = settle 8 parse ser (app_modify f s0)) := by
  obtain ⟨hpend, hsp, hdp, hssp⟩ := hq
  obtain ⟨r0, rr, sp, dp, ty, qp, hw0, hd0, p0, wc, wp⟩ := s0
  dsimp only at hpend hsp hdp hssp hhw hhd hfr hne ⊢
  subst hpend hsp hdp hssp hhw hhd hfr
  have hrn : r0 ≠ n := Ne.symm hne
  constructor
  · have hfinal :
        settle 8 parse ser (external_edit n
          ⟨r0, r0, false, false, ty, false, false, false, 0, wc, wp⟩)
        = ⟨n, n, false, false, ConfigResult.Valid v, false, false, false, 0,
            wc + 1, wp + 1⟩ := by
      simp [settle, step1, external_edit, file_watcher_step, file_saver_run,
            deserializer_step, serializer_step, hrn, hp]
    rw [hfinal]
    exact ⟨rfl, rfl, fun k =>
      settle_eq_self_of_quiescent parse ser _ ⟨rfl, rfl, rfl, rfl⟩ k⟩
  · by_cases hc : r0 = ser (f ty.get)
    · have hfinal :
          settle 8 parse ser (app_modify f
            ⟨r0, r0, false, false, ty, false, false, false, 0, wc, wp⟩)
          = ⟨r0, r0, false, false, ty.modify_via_get_mut f, false, false,
              false, 0, wc, wp⟩ := by
        simp [settle, step1, app_modify, serializer_step,
              ConfigResult.get_modify, hc]
      rw [hfinal]
      exact ⟨hc, rfl, fun k =>
        settle_eq_self_of_quiescent parse ser _ ⟨rfl, rfl, rfl, rfl⟩ k⟩
    · cases hpc : parse (ser (f ty.get)) with
      | ok w =>
          have hfinal :
              settle 8 parse ser (app_modify f
                ⟨r0, r0, false, false, ty, false, false, false, 0, wc, wp⟩)
              = ⟨ser (f ty.get), ser (f ty.get), false, false,
                  ConfigResult.Valid w, false, false, false, 0, wc + 1, wp⟩ := by
            simp [settle, step1, app_modify, serializer_step, file_saver_run,
                  file_watcher_step, deserializer_step,
                  ConfigResult.get_modify, hc, hpc]
          rw [hfinal]
          exact ⟨rfl, rfl, fun k =>
            settle_eq_self_of_quiescent parse ser _ ⟨rfl, rfl, rfl, rfl⟩ k⟩
      | error e =>
          have hfinal :
              settle 8 parse ser (app_modify f
                ⟨r0, r0, false, false, ty, false, false, false, 0, wc, wp⟩)
              = ⟨ser (f ty.get), ser (f ty.get), false, false,
                  (ty.modify_via_get_mut f).with_error e, false, false, false,
                  0, wc + 1, wp⟩ := by
            simp [settle, step1, app_modify, serializer_step, file_saver_run,
                  file_watcher_step, deserializer_step,
                  ConfigResult.get_modify, hc, hpc]
          rw [hfinal]
          exact ⟨rfl, rfl, fun k =>
            settle_eq_self_of_quiescent parse ser _ ⟨rfl, rfl, rfl, rfl⟩ k⟩

/-- C2 (witness): convergence on the concrete decimal parser from a concrete
quiescent state, for the external edit "2" and the mutation adding one. -/
theorem convergence_witness :
    Quiescent q0state
    ∧ natParse "2" = Except.ok 2
    ∧ ("2" : String) ≠ q0state.raw
    ∧ (settle 8 natParse natSer (external_edit "2" q0state)).typed
        = ConfigResult.Valid 2
    ∧ (settle 8 natParse natSer (external_edit "2" q0state)).file = "2"
    ∧ (settle 8 natParse natSer (app_modify (fun x => x + 1) q0state)).file
        = natSer 2
    ∧ (settle 8 natParse natSer (app_modify (fun x => x + 1) q0state)).watcherPub
        = q0state.watcherPub := by
  have h := convergence natParse natSer q0state ⟨rfl, rfl, rfl, rfl⟩ rfl rfl rfl
    "2" 2 rfl (by decide) (fun x => x + 1)
  exact ⟨⟨rfl, rfl, rfl, rfl⟩, rfl, by decide, h.1.1, h.1.2.1, h.2.1, h.2.2.1⟩

end AvConfig
